import Mathlib

/-!
Verification of the RabbitTrail collaboration / authorization core.

The definitions below are a shallow embedding of the server code:

* the storage layer is `DatabaseStorage` from the storage module
  (the variant that includes the invitation methods); the relational
  tables are modelled as lists of rows, the `serial` primary keys as
  explicit counters on the state, and drizzle's
  `select ... where` / `delete ... where` / `update ... set` calls as
  `List.find?` / `List.filter` / `List.map`;
* the HTTP route handlers are those registered in the routes module;
  each handler becomes a pure function from the storage state and the
  request data to an HTTP-style response (status code plus the error
  message the code puts in the JSON body) and the successor state;
* timestamps are naturals (milliseconds since the epoch); every place
  the code reads the current clock takes `now` as an explicit argument,
  and the randomly generated invitation token is likewise an explicit
  argument of the invitation-issuing handler.
-/

/-- Row of the `users` table. -/
structure User where
  id : Nat
  username : String
  password : String
  email : String
  displayName : String
  createdAt : Nat
deriving Repr, DecidableEq

/-- Row of the `projects` table. -/
structure Project where
  id : Nat
  title : String
  description : Option String
  ownerId : Nat
  createdAt : Nat
  archived : Bool
  archivedAt : Option Nat
deriving Repr, DecidableEq

/-- Row of the `project_collaborators` table. -/
structure ProjectCollaborator where
  id : Nat
  projectId : Nat
  userId : Nat
  role : String
deriving Repr, DecidableEq

/-- Row of the `entries` table.  The `links` column stores the JSON
string the storage layer produces; its contents are never inspected by
the modelled logic. -/
structure Entry where
  id : Nat
  projectId : Nat
  createdById : Nat
  title : String
  description : Option String
  latitude : Option String
  longitude : Option String
  mediaUrlImage : Option String
  mediaUrlAudio : Option String
  links : Option String
  createdAt : Nat
  updatedAt : Nat
deriving Repr, DecidableEq

/-- Row of the `project_invitations` table.  `expiresAt` is a nullable
column in the schema, hence an `Option`. -/
structure ProjectInvitation where
  id : Nat
  projectId : Nat
  email : String
  role : String
  token : String
  createdAt : Nat
  expiresAt : Option Nat
  status : String
deriving Repr, DecidableEq

/-- The whole relational store plus the `serial` counters. -/
structure Storage where
  users : List User
  projects : List Project
  entries : List Entry
  projectCollaborators : List ProjectCollaborator
  projectInvitations : List ProjectInvitation
  nextProjectId : Nat
  nextEntryId : Nat
  nextCollaboratorId : Nat
  nextInvitationId : Nat
deriving Repr, DecidableEq

/-- What a route handler sends back: the HTTP status plus the message
field of the JSON error body (empty on success paths, where the code
returns data instead of a message). -/
structure ApiResponse where
  status : Nat
  message : String
deriving Repr, DecidableEq

/-! ## Storage layer (`DatabaseStorage`) -/

/-- `getUser`: select the user row by primary key. -/
def getUser (s : Storage) (id : Nat) : Option User :=
  s.users.find? (fun u => u.id == id)

/-- `getUserByEmail`: select the user row by email. -/
def getUserByEmail (s : Storage) (email : String) : Option User :=
  s.users.find? (fun u => u.email == email)

/-- `getProject`: select the project row by primary key. -/
def getProject (s : Storage) (id : Nat) : Option Project :=
  s.projects.find? (fun p => p.id == id)

/-- `createProject`: insert the project row with its defaulted columns
(`description ?? null`; `archived`, `archived_at`, `created_at` come
from the schema defaults).  No other row is touched. -/
def createProject (s : Storage) (title : String) (description : Option String)
    (ownerId : Nat) (now : Nat) : Project × Storage :=
  let p : Project :=
    { id := s.nextProjectId, title := title, description := description,
      ownerId := ownerId, createdAt := now, archived := false, archivedAt := none }
  (p, { s with projects := s.projects ++ [p], nextProjectId := s.nextProjectId + 1 })

/-- Field-wise update data for a project, mirroring the partial row the
route forwards from the request body (`{...project, ...updateData}`
semantics: absent fields keep their value). -/
structure ProjectPatch where
  title : Option String := none
  description : Option (Option String) := none
  ownerId : Option Nat := none
  archived : Option Bool := none
  archivedAt : Option (Option Nat) := none
deriving Repr, DecidableEq

/-- Apply an update-set to one project row. -/
def applyProjectPatch (p : Project) (d : ProjectPatch) : Project :=
  { p with
    title := d.title.getD p.title,
    description := d.description.getD p.description,
    ownerId := d.ownerId.getD p.ownerId,
    archived := d.archived.getD p.archived,
    archivedAt := d.archivedAt.getD p.archivedAt }

/-- `updateProject`: update the matching row and return it; `none`
models the `Project not found` throw when the update returns no row. -/
def updateProject (s : Storage) (id : Nat) (d : ProjectPatch) :
    Option (Project × Storage) :=
  match getProject s id with
  | none => none
  | some p =>
    some (applyProjectPatch p d,
      { s with projects :=
          s.projects.map (fun q => if q.id == id then applyProjectPatch q d else q) })

/-- `deleteProject`: delete the collaborator rows of the project, then
its entries, then the project row itself.  (The invitation rows are not
touched by this function.) -/
def deleteProject (s : Storage) (id : Nat) : Storage :=
  { s with
    projectCollaborators := s.projectCollaborators.filter (fun c => c.projectId != id),
    entries := s.entries.filter (fun e => e.projectId != id),
    projects := s.projects.filter (fun p => p.id != id) }

/-- `checkProjectAccess`: the user owns the project, or has a
collaborator row on it. -/
def checkProjectAccess (s : Storage) (projectId userId : Nat) : Bool :=
  s.projects.any (fun p => p.id == projectId && p.ownerId == userId) ||
  s.projectCollaborators.any (fun c => c.projectId == projectId && c.userId == userId)

/-- `getEntry`: select the entry row by primary key. -/
def getEntry (s : Storage) (id : Nat) : Option Entry :=
  s.entries.find? (fun e => e.id == id)

/-- `getEntriesByProject`: the entry rows of the project.  (The source
additionally orders them by `created_at` descending; the claims under
verification depend only on which rows are returned.) -/
def getEntriesByProject (s : Storage) (projectId : Nat) : List Entry :=
  s.entries.filter (fun e => e.projectId == projectId)

/-- Field-wise update data for an entry (the partial row the entry
PATCH route forwards).  Nullable columns can be set to null, hence the
doubled options. -/
structure EntryPatch where
  title : Option String := none
  description : Option (Option String) := none
  latitude : Option (Option String) := none
  longitude : Option (Option String) := none
  mediaUrlImage : Option (Option String) := none
  mediaUrlAudio : Option (Option String) := none
  links : Option (Option String) := none
deriving Repr, DecidableEq

/-- Apply an update-set to one entry row; `updated_at` is always set to
the current time, as in the source. -/
def applyEntryPatch (e : Entry) (d : EntryPatch) (now : Nat) : Entry :=
  { e with
    title := d.title.getD e.title,
    description := d.description.getD e.description,
    latitude := d.latitude.getD e.latitude,
    longitude := d.longitude.getD e.longitude,
    mediaUrlImage := d.mediaUrlImage.getD e.mediaUrlImage,
    mediaUrlAudio := d.mediaUrlAudio.getD e.mediaUrlAudio,
    links := d.links.getD e.links,
    updatedAt := now }

/-- `updateEntry`: update the matching row; `none` models the
`Entry not found` throw. -/
def updateEntry (s : Storage) (id : Nat) (d : EntryPatch) (now : Nat) :
    Option (Entry × Storage) :=
  match getEntry s id with
  | none => none
  | some e =>
    some (applyEntryPatch e d now,
      { s with entries :=
          s.entries.map (fun f => if f.id == id then applyEntryPatch f d now else f) })

/-- `deleteEntry`: delete the entry row. -/
def deleteEntry (s : Storage) (id : Nat) : Storage :=
  { s with entries := s.entries.filter (fun e => e.id != id) }

/-- `getProjectCollaborators`: the collaborator rows of the project,
inner-joined with the users table (rows whose user is missing drop out
of the join). -/
def getProjectCollaborators (s : Storage) (projectId : Nat) : List ProjectCollaborator :=
  s.projectCollaborators.filter
    (fun c => c.projectId == projectId && s.users.any (fun u => u.id == c.userId))

/-- `addProjectCollaborator`: throws (modelled as `Except.error`) if a
row for the (project, user) pair already exists; otherwise inserts the
row, defaulting the role to `editor` when absent or empty. -/
def addProjectCollaborator (s : Storage) (projectId userId : Nat) (role : Option String) :
    Except Unit (ProjectCollaborator × Storage) :=
  if s.projectCollaborators.any (fun c => c.projectId == projectId && c.userId == userId) then
    .error ()
  else
    let r := match role with
      | none => "editor"
      | some x => if x == "" then "editor" else x
    let c : ProjectCollaborator :=
      { id := s.nextCollaboratorId, projectId := projectId, userId := userId, role := r }
    .ok (c, { s with
      projectCollaborators := s.projectCollaborators ++ [c],
      nextCollaboratorId := s.nextCollaboratorId + 1 })

/-- `removeProjectCollaborator`: delete every row matching the
(project, user) pair; a missing pair is a no-op, never an error. -/
def removeProjectCollaborator (s : Storage) (projectId userId : Nat) : Storage :=
  { s with projectCollaborators := s.projectCollaborators.filter (fun c => !(c.projectId == projectId && c.userId == userId)) }

/-- `createProjectInvitation`: insert the invitation row.  The token is
generated from a crypto-random UUID in the source and is taken here as
an argument; the expiry defaults to seven days from now when the caller
does not supply one; the status column takes its schema default
`pending`. -/
def createProjectInvitation (s : Storage) (projectId : Nat) (email role token : String)
    (expiresAtArg : Option Nat) (now : Nat) : ProjectInvitation × Storage :=
  let r := if role == "" then "editor" else role
  let expiresAt := expiresAtArg.getD (now + 7 * 24 * 60 * 60 * 1000)
  let inv : ProjectInvitation :=
    { id := s.nextInvitationId, projectId := projectId, email := email, role := r,
      token := token, createdAt := now, expiresAt := some expiresAt, status := "pending" }
  (inv, { s with
    projectInvitations := s.projectInvitations ++ [inv],
    nextInvitationId := s.nextInvitationId + 1 })

/-- `getProjectInvitations`: the invitation rows of the project. -/
def getProjectInvitations (s : Storage) (projectId : Nat) : List ProjectInvitation :=
  s.projectInvitations.filter (fun i => i.projectId == projectId)

/-- `getInvitationByToken`: select the invitation row by token. -/
def getInvitationByToken (s : Storage) (token : String) : Option ProjectInvitation :=
  s.projectInvitations.find? (fun i => i.token == token)

/-- `getInvitationByEmail`: select the invitation row matching the
(project, email) pair, with no condition on status or expiry. -/
def getInvitationByEmail (s : Storage) (projectId : Nat) (email : String) :
    Option ProjectInvitation :=
  s.projectInvitations.find? (fun i => i.projectId == projectId && i.email == email)

/-- `updateInvitationStatus`: set the status column of the row. -/
def updateInvitationStatus (s : Storage) (id : Nat) (status : String) : Storage :=
  let upd := fun (i : ProjectInvitation) => if i.id == id then { i with status := status } else i
  { s with projectInvitations := s.projectInvitations.map upd }

/-! ## Route handlers -/

/-- The expiry test both invitation routes perform:
`invitation.expiresAt && new Date(invitation.expiresAt) < new Date()` —
an invitation with no expiry set never counts as expired. -/
def invitationExpired (inv : ProjectInvitation) (now : Nat) : Bool :=
  match inv.expiresAt with
  | some t => decide (t < now)
  | none => false

/-- The role the collaborator route takes from the request body:
`req.body.role || "editor"` — a missing or empty role falls back to
`editor`. -/
def requestedRole (roleArg : Option String) : String :=
  match roleArg with
  | none => "editor"
  | some x => if x == "" then "editor" else x

/-- The POST `/api/projects` handler: the body is parsed with the
insert schema (title, optional description) and the session user is
forced as `ownerId`, then `createProject` is called; 201 on success. -/
def postProjectsHandler (s : Storage) (userId : Nat) (title : String)
    (description : Option String) (now : Nat) : ApiResponse × Storage :=
  let r := createProject s title description userId now
  ({ status := 201, message := "" }, r.2)

/-- The GET `/api/projects/:id` handler: checks `checkProjectAccess`
first, then looks the project up. -/
def getProjectHandler (s : Storage) (projectId userId : Nat) : ApiResponse × Storage :=
  if !checkProjectAccess s projectId userId then
    ({ status := 403, message := "You don\x27t have access to this project" }, s)
  else
    match getProject s projectId with
    | none => ({ status := 404, message := "Project not found" }, s)
    | some _ => ({ status := 200, message := "" }, s)

/-- The PATCH `/api/projects/:id` handler: looks the project up (404),
requires the caller to be the owner (403), then forwards the request
body unfiltered to `updateProject`. -/
def patchProjectHandler (s : Storage) (projectId userId : Nat) (body : ProjectPatch) :
    ApiResponse × Storage :=
  match getProject s projectId with
  | none => ({ status := 404, message := "Project not found" }, s)
  | some project =>
    if project.ownerId != userId then
      ({ status := 403, message := "Only the owner can modify project details" }, s)
    else
      match updateProject s projectId body with
      | none => ({ status := 500, message := "Failed to update project" }, s)
      | some (_, s1) => ({ status := 200, message := "" }, s1)

/-- The DELETE `/api/projects/:id` handler: looks the project up (404),
requires the caller to be the owner (403), then calls `deleteProject`;
204 on success. -/
def deleteProjectHandler (s : Storage) (projectId userId : Nat) : ApiResponse × Storage :=
  match getProject s projectId with
  | none => ({ status := 404, message := "Project not found" }, s)
  | some project =>
    if project.ownerId != userId then
      ({ status := 403, message := "Only the owner can delete the project" }, s)
    else
      ({ status := 204, message := "" }, deleteProject s projectId)

/-- The PATCH `/api/entries/:id` handler: looks the entry up (404),
checks `checkProjectAccess` on the entry's project (403), then forwards
the request body to `updateEntry`. -/
def patchEntryHandler (s : Storage) (entryId userId : Nat) (body : EntryPatch)
    (now : Nat) : ApiResponse × Storage :=
  match getEntry s entryId with
  | none => ({ status := 404, message := "Entry not found" }, s)
  | some entry =>
    if !checkProjectAccess s entry.projectId userId then
      ({ status := 403, message := "You don\x27t have access to this entry" }, s)
    else
      match updateEntry s entryId body now with
      | none => ({ status := 500, message := "Failed to update entry" }, s)
      | some (_, s1) => ({ status := 200, message := "" }, s1)

/-- The DELETE `/api/entries/:id` handler: looks the entry up (404),
checks `checkProjectAccess` on the entry's project (403), then calls
`deleteEntry`; 204 on success. -/
def deleteEntryHandler (s : Storage) (entryId userId : Nat) : ApiResponse × Storage :=
  match getEntry s entryId with
  | none => ({ status := 404, message := "Entry not found" }, s)
  | some entry =>
    if !checkProjectAccess s entry.projectId userId then
      ({ status := 403, message := "You don\x27t have access to this entry" }, s)
    else
      ({ status := 204, message := "" }, deleteEntry s entryId)

/-- The POST `/api/projects/:projectId/collaborators` handler
(invitation issuance).  Looks the project up (404) and requires the
owner (403).  If the email belongs to an existing user, that user is
added directly as a collaborator with the requested role (defaulted to
`editor`), a throwing `addProjectCollaborator` surfacing as a 500; if
not, an invitation for the (project, email) pair with status `pending`
is returned unchanged (200); otherwise a fresh invitation is created
(201) with the supplied token and the default expiry. -/
def postCollaboratorsHandler (s : Storage) (projectId userId : Nat)
    (email : String) (roleArg : Option String) (token : String) (now : Nat) :
    ApiResponse × Storage :=
  match getProject s projectId with
  | none => ({ status := 404, message := "Project not found" }, s)
  | some project =>
    if project.ownerId != userId then
      ({ status := 403, message := "Only the owner can add collaborators" }, s)
    else
      match getUserByEmail s email with
      | some collaborator =>
        match addProjectCollaborator s projectId collaborator.id (some (requestedRole roleArg)) with
        | .error _ => ({ status := 500, message := "Failed to add collaborator" }, s)
        | .ok (_, s1) => ({ status := 201, message := "Collaborator added successfully" }, s1)
      | none =>
        match getInvitationByEmail s projectId email with
        | some existingInvitation =>
          if existingInvitation.status == "pending" then
            ({ status := 200, message := "Invitation already sent to this email" }, s)
          else
            let r := createProjectInvitation s projectId email (requestedRole roleArg) token none now
            ({ status := 201, message := "Invitation sent successfully" }, r.2)
        | none =>
          let r := createProjectInvitation s projectId email (requestedRole roleArg) token none now
          ({ status := 201, message := "Invitation sent successfully" }, r.2)

/-- The DELETE `/api/projects/:projectId/collaborators/:userId`
handler: looks the project up (404), requires the caller to be the
owner (403), then calls `removeProjectCollaborator` with no check on
the target row; 204 in every remaining case. -/
def deleteCollaboratorHandler (s : Storage) (projectId collaboratorId userId : Nat) :
    ApiResponse × Storage :=
  match getProject s projectId with
  | none => ({ status := 404, message := "Project not found" }, s)
  | some project =>
    if project.ownerId != userId then
      ({ status := 403, message := "Only the owner can remove collaborators" }, s)
    else
      ({ status := 204, message := "" }, removeProjectCollaborator s projectId collaboratorId)

/-- The GET `/api/invitations/:token` handler (token resolution): 404
when no invitation carries the token; 410 `Invitation has expired` when
the expiry is set and in the past; 410 `Invitation has already been
used` when the status is not `pending`; 404 when the invitation's
project is gone; 200 otherwise.  It never mutates state. -/
def resolveTokenHandler (s : Storage) (token : String) (now : Nat) : ApiResponse :=
  match getInvitationByToken s token with
  | none => { status := 404, message := "Invitation not found" }
  | some invitation =>
    if invitationExpired invitation now then
      { status := 410, message := "Invitation has expired" }
    else if invitation.status != "pending" then
      { status := 410, message := "Invitation has already been used" }
    else
      match getProject s invitation.projectId with
      | none => { status := 404, message := "Project not found" }
      | some _ => { status := 200, message := "" }

/-- The POST `/api/invitations/:token/accept` handler: 404 when no
invitation carries the token; 410 `Invitation has expired` when the
expiry is set and in the past; 410 `Invitation has already been used`
when the status is not `pending`; 403 when the session user is missing
or their email differs from the invitation's; otherwise the user is
added as a collaborator with the invitation's role (a throwing
`addProjectCollaborator` surfacing as a 500 with no mutation) and the
invitation's status is set to `accepted`. -/
def acceptInvitationHandler (s : Storage) (token : String) (userId : Nat) (now : Nat) :
    ApiResponse × Storage :=
  match getInvitationByToken s token with
  | none => ({ status := 404, message := "Invitation not found" }, s)
  | some invitation =>
    if invitationExpired invitation now then
      ({ status := 410, message := "Invitation has expired" }, s)
    else if invitation.status != "pending" then
      ({ status := 410, message := "Invitation has already been used" }, s)
    else
      let emailOk := match getUser s userId with
        | none => false
        | some user => user.email == invitation.email
      if !emailOk then
        ({ status := 403,
           message := "You cannot accept an invitation sent to a different email address" }, s)
      else
        match addProjectCollaborator s invitation.projectId userId (some invitation.role) with
        | .error _ => ({ status := 500, message := "Failed to accept invitation" }, s)
        | .ok (_, s1) =>
          ({ status := 200, message := "Invitation accepted successfully" },
            updateInvitationStatus s1 invitation.id "accepted")

/-! ## Concrete fixture states -/

/-- The empty store with all serial counters at 1. -/
def emptyStorage : Storage :=
  { users := [], projects := [], entries := [], projectCollaborators := [],
    projectInvitations := [], nextProjectId := 1, nextEntryId := 1,
    nextCollaboratorId := 1, nextInvitationId := 1 }

/-- A user row for the fixtures. -/
def sampleUser (id : Nat) (email : String) : User :=
  { id := id, username := email, password := "pw", email := email,
    displayName := email, createdAt := 0 }

/-- Project 1, owned by user 1. -/
def sampleProject1 : Project :=
  { id := 1, title := "P1", description := none, ownerId := 1, createdAt := 0,
    archived := false, archivedAt := none }

/-- An entry row for the fixtures. -/
def sampleEntry (id pid uid : Nat) : Entry :=
  { id := id, projectId := pid, createdById := uid, title := "X", description := none,
    latitude := none, longitude := none, mediaUrlImage := none, mediaUrlAudio := none,
    links := none, createdAt := 0, updatedAt := 0 }

/-- One registered user, nothing else. -/
def stateC1 : Storage := { emptyStorage with users := [sampleUser 1 "u1@x.com"] }

/-- Project 1 owned by user 1; users 2 and 3 are editor collaborators;
entry 1 was created by user 2. -/
def stateC2 : Storage :=
  { emptyStorage with
    users := [sampleUser 1 "u1@x.com", sampleUser 2 "u2@x.com", sampleUser 3 "u3@x.com"],
    projects := [sampleProject1],
    projectCollaborators :=
      [ { id := 1, projectId := 1, userId := 2, role := "editor" },
        { id := 2, projectId := 1, userId := 3, role := "editor" } ],
    entries := [sampleEntry 1 1 2],
    nextProjectId := 2, nextEntryId := 2, nextCollaboratorId := 3 }

/-- Project 1 with an entry, a collaborator and a pending invitation. -/
def stateC3 : Storage :=
  { emptyStorage with
    users := [sampleUser 1 "u1@x.com", sampleUser 2 "u2@x.com"],
    projects := [sampleProject1],
    projectCollaborators := [{ id := 1, projectId := 1, userId := 2, role := "editor" }],
    entries := [sampleEntry 1 1 1],
    projectInvitations :=
      [ { id := 1, projectId := 1, email := "bob@x.com", role := "editor",
          token := "tok1", createdAt := 0, expiresAt := some 999999, status := "pending" } ],
    nextProjectId := 2, nextEntryId := 2, nextCollaboratorId := 2, nextInvitationId := 2 }

/-- An invitation that is still `pending` but whose expiry has
passed. -/
def invExpired : ProjectInvitation :=
  { id := 1, projectId := 1, email := "bob@x.com", role := "editor",
    token := "texp", createdAt := 0, expiresAt := some 50, status := "pending" }

/-- An unexpired invitation that was already accepted. -/
def invUsed : ProjectInvitation :=
  { id := 2, projectId := 1, email := "bob@x.com", role := "editor",
    token := "tused", createdAt := 0, expiresAt := some 999999, status := "accepted" }

/-- An unexpired pending invitation addressed to an email no registered
user has. -/
def invMismatch : ProjectInvitation :=
  { id := 3, projectId := 1, email := "bob@x.com", role := "editor",
    token := "tmis", createdAt := 0, expiresAt := some 999999, status := "pending" }

/-- Project 1 with three invitations: an expired pending one, an
unexpired already-accepted one, and an unexpired pending one whose
email does not match any user; the only user is `alice@x.com`. -/
def stateC4 : Storage :=
  { emptyStorage with
    users := [sampleUser 1 "alice@x.com"],
    projects := [sampleProject1],
    projectInvitations := [invExpired, invUsed, invMismatch],
    nextProjectId := 2, nextInvitationId := 4 }

/-- Two users; project 1 owned by user 1. -/
def stateC5 : Storage :=
  { emptyStorage with
    users := [sampleUser 1 "u1@x.com", sampleUser 2 "u2@x.com"],
    projects := [sampleProject1], nextProjectId := 2 }

/-- Project 1 owned by user 1 together with the owner's own
collaborator row carrying role `owner`. -/
def stateC6 : Storage :=
  { emptyStorage with
    users := [sampleUser 1 "u1@x.com"],
    projects := [sampleProject1],
    projectCollaborators := [{ id := 1, projectId := 1, userId := 1, role := "owner" }],
    nextProjectId := 2, nextCollaboratorId := 2 }

/-- Project 1 owned by user 1 and an expired but still `pending`
invitation for `bob@x.com`, who has no account. -/
def stateC8 : Storage :=
  { emptyStorage with
    users := [sampleUser 1 "u1@x.com"],
    projects := [sampleProject1],
    projectInvitations :=
      [ { id := 1, projectId := 1, email := "bob@x.com", role := "editor",
          token := "oldtok", createdAt := 0, expiresAt := some 10, status := "pending" } ],
    nextProjectId := 2, nextInvitationId := 2 }

/-- Project 1 owned by user 1; Carol (user 2) has an account and is
already an editor collaborator. -/
def stateC9 : Storage :=
  { emptyStorage with
    users := [sampleUser 1 "u1@x.com", sampleUser 2 "carol@x.com"],
    projects := [sampleProject1],
    projectCollaborators := [{ id := 1, projectId := 1, userId := 2, role := "editor" }],
    nextProjectId := 2, nextCollaboratorId := 2 }

/-- Project 1 owned by user 1; Carol (user 2) has an account and is
not yet a collaborator. -/
def stateC9b : Storage :=
  { emptyStorage with
    users := [sampleUser 1 "u1@x.com", sampleUser 2 "carol@x.com"],
    projects := [sampleProject1],
    nextProjectId := 2 }

/-- Project 1 owned by user 1 and no collaborator rows at all. -/
def stateC10 : Storage :=
  { emptyStorage with
    users := [sampleUser 1 "u1@x.com"],
    projects := [sampleProject1], nextProjectId := 2 }

/-! ## Helper lemmas -/

/-- Updating project rows with an update-set that has no `ownerId`
field preserves every row's (id, ownerId) pair. -/
theorem map_id_owner_of_patch_no_owner (l : List Project) (pid : Nat) (d : ProjectPatch)
    (h : d.ownerId = none) :
    (l.map (fun q => if q.id == pid then applyProjectPatch q d else q)).map
        (fun p => (p.id, p.ownerId))
      = l.map (fun p => (p.id, p.ownerId)) := by
  induction l with
  | nil => rfl
  | cons a l ih =>
    simp only [List.map_cons, ih]
    by_cases hp : a.id == pid <;> simp [hp, applyProjectPatch, h]

/-- A filter whose predicate holds on every element of the list is the
identity. -/
theorem filter_eq_self_of_all (l : List ProjectCollaborator)
    (p : ProjectCollaborator → Bool) (h : l.all p = true) : l.filter p = l := by
  induction l with
  | nil => rfl
  | cons a l ih =>
    simp only [List.all_cons, Bool.and_eq_true] at h
    simp [List.filter_cons, h.1, ih h.2]

/-! ## C1 -/

/-- C1: the claim states that after `createProject` succeeds the
project has exactly one collaborator row with role `owner` matching
`project.ownerId`, created with the project as one logical unit.  At
the concrete input below (one registered user, empty store) the created
project (id 1) has zero collaborator rows of role `owner`, so the claim
is false: neither the route nor `createProject` inserts an owner
collaborator row. -/
theorem createProject_owner_row_counterexample :
    (postProjectsHandler stateC1 1 "P1" none 0).1.status = 201
    ∧ ((postProjectsHandler stateC1 1 "P1" none 0).2.projectCollaborators.filter
        (fun c => c.projectId == 1 && c.role == "owner")).length = 0
    ∧ ¬ ((postProjectsHandler stateC1 1 "P1" none 0).2.projectCollaborators.filter
        (fun c => c.projectId == 1 && c.role == "owner")).length = 1 := by
  decide

/-- C1 (amended): `createProject` persists the project row only and
creates no collaborator row at all; the collaborator table is unchanged
by project creation, and the owner's access to the new project is
derived solely from `project.ownerId` through `checkProjectAccess`. -/
theorem createProject_no_collaborator_row (s : Storage) (uid : Nat)
    (title : String) (description : Option String) (now : Nat) :
    (postProjectsHandler s uid title description now).2.projectCollaborators
        = s.projectCollaborators
    ∧ checkProjectAccess (postProjectsHandler s uid title description now).2
        s.nextProjectId uid = true := by
  refine ⟨rfl, ?_⟩
  simp [postProjectsHandler, createProject, checkProjectAccess, List.any_append]

/-! ## C2 -/

/-- C2: the claim states that `updateEntry`/`deleteEntry` succeed only
for the entry's creator or a project owner, and that a different editor
is denied.  At the concrete input below, entry 1 of project 1 was
created by user 2, user 3 is a different editor collaborator (and not
the owner, who is user 1), yet user 3's PATCH succeeds with 200 and the
DELETE with 204: the handlers check only `checkProjectAccess`. -/
theorem entry_mutation_by_other_editor_counterexample :
    ((getEntry stateC2 1).map Entry.createdById = some 2)
    ∧ ((getProject stateC2 1).map Project.ownerId = some 1)
    ∧ (stateC2.projectCollaborators.any
        (fun c => c.projectId == 1 && c.userId == 3 && c.role == "editor") = true)
    ∧ (patchEntryHandler stateC2 1 3 {} 5).1.status = 200
    ∧ (deleteEntryHandler stateC2 1 3).1.status = 204 := by
  decide

/-- C2 (amended): entry update and delete require only project access:
any caller with `checkProjectAccess` on the entry's project — owner or
any collaborator of any role, creator or not — succeeds, and any caller
without it receives 403; the entry's `createdById` and the caller's
role are never consulted. -/
theorem entry_mutation_requires_only_access (s : Storage) (entryId userId : Nat)
    (body : EntryPatch) (now : Nat) (e : Entry)
    (he : getEntry s entryId = some e) :
    (checkProjectAccess s e.projectId userId = true →
      (patchEntryHandler s entryId userId body now).1.status = 200
      ∧ (deleteEntryHandler s entryId userId).1.status = 204)
    ∧ (checkProjectAccess s e.projectId userId = false →
      (patchEntryHandler s entryId userId body now).1.status = 403
      ∧ (deleteEntryHandler s entryId userId).1.status = 403) := by
  constructor
  · intro hacc
    constructor
    · simp [patchEntryHandler, updateEntry, he, hacc]
    · simp [deleteEntryHandler, he, hacc]
  · intro hacc
    constructor
    · simp [patchEntryHandler, he, hacc]
    · simp [deleteEntryHandler, he, hacc]

/-- Witness for C2 (amended) at the fixture state. -/
theorem entry_mutation_requires_only_access_witness :
    (patchEntryHandler stateC2 1 3 {} 5).1.status = 200
    ∧ (deleteEntryHandler stateC2 1 3).1.status = 204 :=
  (entry_mutation_requires_only_access stateC2 1 3 {} 5 (sampleEntry 1 1 2)
    (by decide)).1 (by decide)

/-! ## C3 -/

/-- C3: `deleteProject` removes the project's entries and collaborator
rows and the project itself, but leaves its ProjectInvitation rows in
place — `getProjectInvitations` is non-empty afterwards, contradicting
the claim (and, under the schema's foreign key from
`project_invitations.project_id` to `projects.id`, the final project
delete would be rejected by the database).  Evaluated at a project
carrying one entry, one collaborator and one pending invitation. -/
theorem deleteProject_leaves_invitations :
    (deleteProjectHandler stateC3 1 1).1.status = 204
    ∧ getEntriesByProject (deleteProjectHandler stateC3 1 1).2 1 = []
    ∧ getProjectCollaborators (deleteProjectHandler stateC3 1 1).2 1 = []
    ∧ getProject (deleteProjectHandler stateC3 1 1).2 1 = none
    ∧ getProjectInvitations (deleteProjectHandler stateC3 1 1).2 1 ≠ [] := by
  decide

/-! ## C4 -/

/-- C4: for every token and accepting user, the accept route (and the
token-resolution route) fails with exactly the coded failure kind —
404 `Invitation not found` when no invitation carries the token; 410
`Invitation has expired` when the expiry is set and in the past, the
status notwithstanding; 410 `Invitation has already been used` when the
invitation is not expired but its status is not `pending`; 403 (email
mismatch) when the accepting user's email is not string-equal to the
invitation's — and on every such failure the returned state is exactly
the input state: no collaborator row is created and the invitation is
unchanged. -/
theorem invitation_failure_taxonomy (s : Storage) (token : String) (userId now : Nat) :
    (getInvitationByToken s token = none →
      acceptInvitationHandler s token userId now
          = ({ status := 404, message := "Invitation not found" }, s)
      ∧ resolveTokenHandler s token now
          = { status := 404, message := "Invitation not found" })
    ∧ (∀ inv, getInvitationByToken s token = some inv →
        invitationExpired inv now = true →
      acceptInvitationHandler s token userId now
          = ({ status := 410, message := "Invitation has expired" }, s)
      ∧ resolveTokenHandler s token now
          = { status := 410, message := "Invitation has expired" })
    ∧ (∀ inv, getInvitationByToken s token = some inv →
        invitationExpired inv now = false → inv.status ≠ "pending" →
      acceptInvitationHandler s token userId now
          = ({ status := 410, message := "Invitation has already been used" }, s)
      ∧ resolveTokenHandler s token now
          = { status := 410, message := "Invitation has already been used" })
    ∧ (∀ inv u, getInvitationByToken s token = some inv →
        invitationExpired inv now = false → inv.status = "pending" →
        getUser s userId = some u → u.email ≠ inv.email →
      acceptInvitationHandler s token userId now
          = ({ status := 403,
               message := "You cannot accept an invitation sent to a different email address" },
             s)) := by
  refine ⟨?_, ?_, ?_, ?_⟩
  · intro h
    exact ⟨by simp [acceptInvitationHandler, h], by simp [resolveTokenHandler, h]⟩
  · intro inv h hexp
    exact ⟨by simp [acceptInvitationHandler, h, hexp],
           by simp [resolveTokenHandler, h, hexp]⟩
  · intro inv h hexp hst
    exact ⟨by simp [acceptInvitationHandler, h, hexp, hst],
           by simp [resolveTokenHandler, h, hexp, hst]⟩
  · intro inv u h hexp hst hu hne
    simp [acceptInvitationHandler, h, hexp, hst, hu, hne]

/-- Witness for C4 at the fixture invitations: a missing token is 404,
the expired pending token is 410 expired, the accepted token is 410
already used, and the mismatched email is 403 — each leaving the state
untouched. -/
theorem invitation_failure_taxonomy_witness :
    acceptInvitationHandler stateC4 "missing" 1 100
        = ({ status := 404, message := "Invitation not found" }, stateC4)
    ∧ acceptInvitationHandler stateC4 "texp" 1 100
        = ({ status := 410, message := "Invitation has expired" }, stateC4)
    ∧ acceptInvitationHandler stateC4 "tused" 1 100
        = ({ status := 410, message := "Invitation has already been used" }, stateC4)
    ∧ acceptInvitationHandler stateC4 "tmis" 1 100
        = ({ status := 403,
             message := "You cannot accept an invitation sent to a different email address" },
           stateC4) := by
  refine ⟨((invitation_failure_taxonomy stateC4 "missing" 1 100).1 (by decide)).1,
          ((invitation_failure_taxonomy stateC4 "texp" 1 100).2.1 invExpired
            (by decide) (by decide)).1,
          ((invitation_failure_taxonomy stateC4 "tused" 1 100).2.2.1 invUsed
            (by decide) (by decide) (by decide)).1,
          (invitation_failure_taxonomy stateC4 "tmis" 1 100).2.2.2 invMismatch
            (sampleUser 1 "alice@x.com")
            (by decide) (by decide) (by decide) (by decide) (by decide)⟩

/-! ## C5 -/

/-- C5: the claim states that no operation short of full deletion ever
changes `project.ownerId`.  At the concrete input below the owner
(user 1) sends a project PATCH whose body contains `ownerId := 2`; the
handler forwards the body unfiltered to `updateProject`, the request
succeeds, and the project's owner becomes user 2 — ownership
transfers. -/
theorem project_patch_transfers_ownership_counterexample :
    ((getProject stateC5 1).map Project.ownerId = some 1)
    ∧ (patchProjectHandler stateC5 1 1 { ownerId := some 2 }).1.status = 200
    ∧ ((getProject (patchProjectHandler stateC5 1 1 { ownerId := some 2 }).2 1).map
        Project.ownerId = some 2) := by
  decide

/-- C5 (amended): every project's (id, ownerId) pair is preserved by a
project PATCH whenever the request body does not itself carry an
`ownerId` field (the archive/unarchive routes only ever send
`archived`/`archivedAt`); a body carrying `ownerId` overwrites the
owner, so ownership can transfer through this route. -/
theorem project_owner_preserved_without_owner_field (s : Storage) (pid uid : Nat)
    (body : ProjectPatch) (h : body.ownerId = none) :
    (patchProjectHandler s pid uid body).2.projects.map (fun p => (p.id, p.ownerId))
      = s.projects.map (fun p => (p.id, p.ownerId)) := by
  unfold patchProjectHandler updateProject
  cases hg : getProject s pid with
  | none => rfl
  | some project =>
    by_cases ho : project.ownerId == uid
    · simp only [bne, ho, Bool.not_true, Bool.false_eq_true, if_false]
      exact map_id_owner_of_patch_no_owner s.projects pid body h
    · simp [bne, ho]

/-- Witness for C5 (amended): an empty PATCH body at the fixture
state. -/
theorem project_owner_preserved_without_owner_field_witness :
    (patchProjectHandler stateC5 1 1 {}).2.projects.map (fun p => (p.id, p.ownerId))
      = stateC5.projects.map (fun p => (p.id, p.ownerId)) :=
  project_owner_preserved_without_owner_field stateC5 1 1 {} rfl

/-! ## C6 -/

/-- C6: the claim states that collaborator removal fails with a
Forbidden-equivalent when the target row has role `owner`.  At the
concrete input below the target row is (project 1, user 1, role
`owner`), the owner calls the DELETE route, and the call succeeds with
204 while the owner row is removed: no role check exists on this path
(and no role-update route exists at all). -/
theorem remove_owner_collaborator_counterexample :
    (stateC6.projectCollaborators.any
      (fun c => c.projectId == 1 && c.userId == 1 && c.role == "owner") = true)
    ∧ (deleteCollaboratorHandler stateC6 1 1 1).1.status = 204
    ∧ (deleteCollaboratorHandler stateC6 1 1 1).1.status ≠ 403
    ∧ (deleteCollaboratorHandler stateC6 1 1 1).2.projectCollaborators = [] := by
  decide

/-- C6 (amended): once the caller is the project's owner, the DELETE
collaborator route always answers 204 and removes every collaborator
row of the (project, target) pair, whatever role — `owner` included —
those rows carry; the target's role is never consulted, and the code
has no role-update operation. -/
theorem remove_collaborator_ignores_role (s : Storage) (pid target uid : Nat)
    (project : Project) (hp : getProject s pid = some project) (ho : project.ownerId = uid) :
    deleteCollaboratorHandler s pid target uid
      = ({ status := 204, message := "" }, removeProjectCollaborator s pid target) := by
  simp [deleteCollaboratorHandler, hp, ho]

/-- Witness for C6 (amended) at the fixture state with the owner row. -/
theorem remove_collaborator_ignores_role_witness :
    deleteCollaboratorHandler stateC6 1 1 1
      = ({ status := 204, message := "" }, removeProjectCollaborator stateC6 1 1) :=
  remove_collaborator_ignores_role stateC6 1 1 1 sampleProject1 (by decide) rfl

/-! ## C7 -/

/-- C7: the claim states that a nonexistent resource always yields
NotFound, and Forbidden only when the resource exists; in particular
reading a missing project yields NotFound.  On the empty store, reading
project 1 yields 403 (the GET route checks access before existence),
not 404. -/
theorem missing_project_forbidden_counterexample :
    (getProject emptyStorage 1 = none)
    ∧ (getProjectHandler emptyStorage 1 1).1.status = 403
    ∧ (getProjectHandler emptyStorage 1 1).1.status ≠ 404 := by
  decide

/-- C7 (amended): the routes that load the resource first — project
PATCH and DELETE, the collaborator routes, and the entry routes —
answer 404 for a missing resource; but the project GET route checks
access first, so a missing project yields 403 whenever no stale
collaborator row grants the caller access, and 404 only when one
does. -/
theorem missing_resource_status_split (s : Storage) (pid uid : Nat) (body : ProjectPatch)
    (email : String) (roleArg : Option String) (token : String) (now : Nat)
    (h : getProject s pid = none) :
    (checkProjectAccess s pid uid = false → (getProjectHandler s pid uid).1.status = 403)
    ∧ (checkProjectAccess s pid uid = true → (getProjectHandler s pid uid).1.status = 404)
    ∧ (patchProjectHandler s pid uid body).1.status = 404
    ∧ (deleteProjectHandler s pid uid).1.status = 404
    ∧ (postCollaboratorsHandler s pid uid email roleArg token now).1.status = 404
    ∧ (deleteCollaboratorHandler s pid uid uid).1.status = 404
    ∧ (∀ eid, getEntry s eid = none →
        (patchEntryHandler s eid uid {} now).1.status = 404
        ∧ (deleteEntryHandler s eid uid).1.status = 404) := by
  refine ⟨?_, ?_, ?_, ?_, ?_, ?_, ?_⟩
  · intro hacc; simp [getProjectHandler, hacc]
  · intro hacc; simp [getProjectHandler, hacc, h]
  · simp [patchProjectHandler, h]
  · simp [deleteProjectHandler, h]
  · simp [postCollaboratorsHandler, h]
  · simp [deleteCollaboratorHandler, h]
  · intro eid he
    exact ⟨by simp [patchEntryHandler, he], by simp [deleteEntryHandler, he]⟩

/-- Witness for C7 (amended) on the empty store. -/
theorem missing_resource_status_split_witness :
    (getProjectHandler emptyStorage 1 1).1.status = 403
    ∧ (patchProjectHandler emptyStorage 1 1 {}).1.status = 404
    ∧ (deleteProjectHandler emptyStorage 1 1).1.status = 404 :=
  let t := missing_resource_status_split emptyStorage 1 1 {} "e@x.com" none "tok" 0 (by decide)
  ⟨t.1 (by decide), t.2.2.1, t.2.2.2.1⟩

/-! ## C8 -/

/-- The role taken from the request body is never the empty string. -/
theorem requestedRole_ne_empty (roleArg : Option String) :
    (requestedRole roleArg == "") = false := by
  cases roleArg with
  | none => decide
  | some x =>
    by_cases hx : (x == "") = true
    · simp [requestedRole, hx]
    · have hx2 : (x == "") = false := by simpa using hx
      simp [requestedRole, hx2]

/-- C8: the claim states that an existing pending invitation is reused
only when it is also unexpired, a new one being created otherwise.  At
the concrete input below the sole invitation for (project 1,
`bob@x.com`) is still `pending` but expired at the request time (expiry
10 < now 1000); no pending-and-unexpired invitation exists, yet the
route answers 200 and leaves the store — the invitation table included
— exactly unchanged, creating no fresh invitation: the reuse check
tests only `status === "pending"`, never the expiry. -/
theorem stale_invitation_reused_counterexample :
    (getUserByEmail stateC8 "bob@x.com" = none)
    ∧ ((getInvitationByEmail stateC8 1 "bob@x.com").map
        (fun i => invitationExpired i 1000) = some true)
    ∧ ((getInvitationByEmail stateC8 1 "bob@x.com").map
        ProjectInvitation.status = some "pending")
    ∧ (postCollaboratorsHandler stateC8 1 1 "bob@x.com" none "freshtok" 1000).1.status = 200
    ∧ (postCollaboratorsHandler stateC8 1 1 "bob@x.com" none "freshtok" 1000).2 = stateC8 := by
  decide

/-- C8 (amended): when the invited email has no account, an existing
invitation for the (project, email) pair with status `pending` is
returned unchanged whether or not it has expired; only when no
invitation exists for the pair, or the existing one's status is not
`pending`, is a fresh invitation appended, carrying the supplied
token, the requested role, status `pending`, and expiry exactly seven
days from issuance (the route never overrides the default expiry). -/
theorem issue_invitation_no_account (s : Storage) (pid uid : Nat) (email : String)
    (roleArg : Option String) (token : String) (now : Nat) (project : Project)
    (hp : getProject s pid = some project) (ho : project.ownerId = uid)
    (hu : getUserByEmail s email = none) :
    (∀ inv, getInvitationByEmail s pid email = some inv → inv.status = "pending" →
      postCollaboratorsHandler s pid uid email roleArg token now
        = ({ status := 200, message := "Invitation already sent to this email" }, s))
    ∧ (getInvitationByEmail s pid email = none →
      (postCollaboratorsHandler s pid uid email roleArg token now).1.status = 201
      ∧ (postCollaboratorsHandler s pid uid email roleArg token now).2.projectInvitations
          = s.projectInvitations ++
            [{ id := s.nextInvitationId, projectId := pid, email := email,
               role := requestedRole roleArg, token := token, createdAt := now,
               expiresAt := some (now + 7 * 24 * 60 * 60 * 1000), status := "pending" }])
    ∧ (∀ inv, getInvitationByEmail s pid email = some inv → inv.status ≠ "pending" →
      (postCollaboratorsHandler s pid uid email roleArg token now).1.status = 201
      ∧ (postCollaboratorsHandler s pid uid email roleArg token now).2.projectInvitations
          = s.projectInvitations ++
            [{ id := s.nextInvitationId, projectId := pid, email := email,
               role := requestedRole roleArg, token := token, createdAt := now,
               expiresAt := some (now + 7 * 24 * 60 * 60 * 1000), status := "pending" }]) := by
  refine ⟨?_, ?_, ?_⟩
  · intro inv hinv hst
    simp [postCollaboratorsHandler, hp, ho, hu, hinv, hst]
  · intro hinv
    constructor
    · simp [postCollaboratorsHandler, hp, ho, hu, hinv, createProjectInvitation]
    · simp [postCollaboratorsHandler, hp, ho, hu, hinv, createProjectInvitation,
        requestedRole_ne_empty]
  · intro inv hinv hst
    constructor
    · simp [postCollaboratorsHandler, hp, ho, hu, hinv, createProjectInvitation,
        beq_iff_eq, hst]
    · simp [postCollaboratorsHandler, hp, ho, hu, hinv, createProjectInvitation,
        beq_iff_eq, hst, requestedRole_ne_empty]

/-- Witness for C8 (amended): inviting `bob@x.com` on a store with no
invitations creates the defaulted seven-day pending invitation. -/
theorem issue_invitation_no_account_witness :
    (postCollaboratorsHandler stateC10 1 1 "bob@x.com" none "freshtok" 1000).1.status = 201
    ∧ (postCollaboratorsHandler stateC10 1 1 "bob@x.com" none "freshtok" 1000).2.projectInvitations
        = stateC10.projectInvitations ++
          [{ id := 1, projectId := 1, email := "bob@x.com", role := "editor",
             token := "freshtok", createdAt := 1000,
             expiresAt := some (1000 + 7 * 24 * 60 * 60 * 1000), status := "pending" }] :=
  (issue_invitation_no_account stateC10 1 1 "bob@x.com" none "freshtok" 1000 sampleProject1
    (by decide) rfl (by decide)).2.1 (by decide)

/-! ## C9 -/

/-- C9: the claim states that inviting an email that belongs to an
already-collaborating user is reported as a normal, non-error outcome.
At the concrete input below Carol (user 2) has an account and is
already an editor collaborator of project 1; the owner invites
`carol@x.com` again, `addProjectCollaborator` throws, and the route
answers 500 `Failed to add collaborator` with the store unchanged: an
error, not a normal outcome. -/
theorem invite_existing_collaborator_counterexample :
    ((getUserByEmail stateC9 "carol@x.com").map User.id = some 2)
    ∧ (stateC9.projectCollaborators.any
        (fun c => c.projectId == 1 && c.userId == 2) = true)
    ∧ postCollaboratorsHandler stateC9 1 1 "carol@x.com" (some "editor") "tok" 0
        = ({ status := 500, message := "Failed to add collaborator" }, stateC9) := by
  decide

/-- C9 (amended): when the invited email matches an existing user, no
invitation row is ever created; if that user is not yet a collaborator
they are added directly with the requested role (201); but if they
already are one, the storage layer throws and the route reports a 500
error with the store unchanged — re-inviting an existing collaborator
is an error, not an idempotent success. -/
theorem invite_existing_user_direct_add (s : Storage) (pid uid : Nat) (email : String)
    (roleArg : Option String) (token : String) (now : Nat) (project : Project) (u : User)
    (hp : getProject s pid = some project) (ho : project.ownerId = uid)
    (hu : getUserByEmail s email = some u) :
    (s.projectCollaborators.any (fun c => c.projectId == pid && c.userId == u.id) = false →
      (postCollaboratorsHandler s pid uid email roleArg token now).1.status = 201
      ∧ (postCollaboratorsHandler s pid uid email roleArg token now).2.projectInvitations
          = s.projectInvitations
      ∧ (postCollaboratorsHandler s pid uid email roleArg token now).2.projectCollaborators
          = s.projectCollaborators ++
            [{ id := s.nextCollaboratorId, projectId := pid, userId := u.id,
               role := requestedRole roleArg }])
    ∧ (s.projectCollaborators.any (fun c => c.projectId == pid && c.userId == u.id) = true →
      postCollaboratorsHandler s pid uid email roleArg token now
        = ({ status := 500, message := "Failed to add collaborator" }, s)) := by
  constructor
  · intro habs
    refine ⟨?_, ?_, ?_⟩
    · simp [postCollaboratorsHandler, hp, ho, hu, addProjectCollaborator, habs]
    · simp [postCollaboratorsHandler, hp, ho, hu, addProjectCollaborator, habs]
    · simp [postCollaboratorsHandler, hp, ho, hu, addProjectCollaborator, habs,
        requestedRole_ne_empty]
  · intro hdup
    simp [postCollaboratorsHandler, hp, ho, hu, addProjectCollaborator, hdup]

/-- Witness for C9 (amended): inviting Carol, who has an account and is
not yet a collaborator, adds the editor row directly and creates no
invitation. -/
theorem invite_existing_user_direct_add_witness :
    (postCollaboratorsHandler stateC9b 1 1 "carol@x.com" (some "editor") "tok" 0).1.status = 201
    ∧ (postCollaboratorsHandler stateC9b 1 1 "carol@x.com" (some "editor") "tok" 0).2.projectInvitations
        = stateC9b.projectInvitations
    ∧ (postCollaboratorsHandler stateC9b 1 1 "carol@x.com" (some "editor") "tok" 0).2.projectCollaborators
        = stateC9b.projectCollaborators ++
          [{ id := 1, projectId := 1, userId := 2, role := "editor" }] :=
  (invite_existing_user_direct_add stateC9b 1 1 "carol@x.com" (some "editor") "tok" 0
    sampleProject1 (sampleUser 2 "carol@x.com") (by decide) rfl (by decide)).1 (by decide)

/-! ## C10 -/

/-- C10: when the project exists, the caller is its owner, and no
collaborator row matches the (project, target) pair, the DELETE
collaborator route answers 204 and returns the store exactly unchanged:
removal of a missing collaborator is a silent no-op at the public
interface, with no NotFound reported. -/
theorem remove_missing_collaborator_is_noop (s : Storage) (pid target uid : Nat)
    (project : Project) (hp : getProject s pid = some project) (ho : project.ownerId = uid)
    (habs : s.projectCollaborators.all
      (fun c => !(c.projectId == pid && c.userId == target)) = true) :
    deleteCollaboratorHandler s pid target uid = ({ status := 204, message := "" }, s) := by
  have hf := filter_eq_self_of_all s.projectCollaborators
    (fun c => !(c.projectId == pid && c.userId == target)) habs
  have h2 : removeProjectCollaborator s pid target = s := by
    unfold removeProjectCollaborator
    rw [hf]
  simp [deleteCollaboratorHandler, hp, ho, h2]

/-- Witness for C10 at the fixture state with no collaborator rows. -/
theorem remove_missing_collaborator_is_noop_witness :
    deleteCollaboratorHandler stateC10 1 2 1 = ({ status := 204, message := "" }, stateC10) :=
  remove_missing_collaborator_is_noop stateC10 1 2 1 sampleProject1 (by decide) rfl (by decide)
